import Mathlib

/-!
# Verification of the Nexus Stripe server (src/stripe_server.py)

A shallow embedding of the Flask/Stripe payment backend: the plan catalog,
the license tiering function, the checkout-session initiator, the webhook
verifier and router, the payment reconciliation handler with its two-source
affiliate-code resolution, the coupon-detection fallback chain, the outbound
registration call to the Google Apps Script collaborator, and the admin
session-detail lookup.

Python values that may be `None` are embedded as `Option`; Python truthiness
of a string-or-`None` value is the predicate `truthy` below (`None` and the
empty string are falsy).  Calls into the payment provider's SDK, which may
raise, are embedded as `Except String` valued fields of an explicit
environment `StripeEnv`; `try/except` blocks become pattern matches on the
`Except`.  The response of the external registration collaborator is an
explicit `ScriptResponse` value.
-/

/-- Python truthiness of a string-or-None value: `None` and `""` are falsy. -/
def truthy : Option String → Bool
  | none => false
  | some s => s ≠ ""

/-- Python `a or b` on string-or-None values: `a` when truthy, else `b`. -/
def pyOr (a b : Option String) : Option String :=
  if truthy a then a else b

/-- The whitespace characters removed by Python `str.strip()` (ASCII range:
space, tab, newline, carriage return, vertical tab, form feed). -/
def pyIsSpace (c : Char) : Bool :=
  c = ' ' || c = '\t' || c = '\n' || c = '\r' || c = '\x0b' || c = '\x0c'

/-- Drop leading whitespace from a character list. -/
def dropLeadingSpace : List Char → List Char
  | [] => []
  | c :: cs => if pyIsSpace c then dropLeadingSpace cs else c :: cs

/-- Python `str.strip()`: remove leading and trailing whitespace. -/
def pyStrip (s : String) : String :=
  ⟨dropLeadingSpace ((dropLeadingSpace s.data.reverse).reverse)⟩

/-- Python `str.upper()` (ASCII case mapping, which covers every string this
server manipulates). -/
def pyUpper (s : String) : String :=
  ⟨s.data.map Char.toUpper⟩

/-- Python `str.lower()` (ASCII case mapping). -/
def pyLower (s : String) : String :=
  ⟨s.data.map Char.toLower⟩

/-- Constant `PRICE_MAP` from src/stripe_server.py: plan id to provider price id. -/
def PRICE_MAP : List (String × String) :=
  [("1", "price_1ST2Cg2KiTHorHsUc2nE0SEh"),
   ("2", "price_1ST2Da2KiTHorHsUpkfJ0BJn"),
   ("3", "price_1ST2E32KiTHorHsULapHHGRG")]

/-- A localized plan display name (the `en`/`es` dictionary values). -/
structure LocalizedName where
  en : String
  es : String
deriving Repr, DecidableEq

/-- Constant `PLAN_NAMES` from src/stripe_server.py. -/
def PLAN_NAMES : List (String × LocalizedName) :=
  [("1", ⟨"Nexus Copier - Starter (1 Account)", "Nexus Copier - Starter (1 Cuenta)"⟩),
   ("2", ⟨"Nexus Copier - Pro (2 Accounts)", "Nexus Copier - Pro (2 Cuentas)"⟩),
   ("3", ⟨"Nexus Copier - Business (3 Accounts)", "Nexus Copier - Business (3 Cuentas)"⟩)]

/-- Constant `LICENSES_BY_AMOUNT`: descending threshold bands mapping a paid amount
in minor currency units to a license quantity. -/
def LICENSES_BY_AMOUNT : List (Int × Nat) :=
  [(14900, 3), (8900, 2), (5900, 1)]

/-- The `for threshold, qty in LICENSES_BY_AMOUNT` loop of
`get_licenses_quantity`: return the quantity of the first band whose
threshold the amount meets or exceeds. -/
def licensesLoop (bands : List (Int × Nat)) (amount_cents : Int) : Nat :=
  match bands with
  | [] => 1
  | (threshold, qty) :: rest =>
      if amount_cents ≥ threshold then qty else licensesLoop rest amount_cents

/-- Function `get_licenses_quantity` from src/stripe_server.py. -/
def get_licenses_quantity (amount_cents : Int) : Nat :=
  licensesLoop LICENSES_BY_AMOUNT amount_cents

/-- C2: the license tiering function is total and deterministic on every
integer amount of minor currency units (it is a Lean function, hence both);
it realises the descending bands 14900 → 3, 8900 → 2, 5900 → 1 with default
1, so every amount ≥ 14900 yields 3, amounts in [8900, 14900) yield 2,
amounts in [5900, 8900) yield 1, and every amount below 5900 (e.g. 100)
yields 1. -/
theorem get_licenses_quantity_bands (a : Int) :
    get_licenses_quantity a =
      (if a ≥ 14900 then 3 else if a ≥ 8900 then 2 else if a ≥ 5900 then 1 else 1)
    ∧ get_licenses_quantity 14900 = 3
    ∧ get_licenses_quantity 8900 = 2
    ∧ get_licenses_quantity 5900 = 1
    ∧ get_licenses_quantity 100 = 1 := by
  refine ⟨rfl, by decide, by decide, by decide, by decide⟩

/-! ## Session data model for the webhook path -/

/-- A coupon object as consulted by `detect_coupon_code`: its `name` and `id`
fields, each a string or `None`. -/
structure Coupon where
  name : Option String
  id : Option String
deriving Repr, DecidableEq

/-- A discount object returned by `stripe.Discount.retrieve`: the code only
reads its `coupon` attribute (possibly `None`). -/
structure Discount where
  coupon : Option Coupon
deriving Repr, DecidableEq

/-- One entry of `total_details.breakdown.discounts` of an expanded session:
the code reads `d["discount"]["coupon"]` through `.get` chains with empty
defaults, so the whole chain collapses to an optional coupon. -/
structure BreakdownDiscount where
  coupon : Option Coupon
deriving Repr, DecidableEq

/-- The session `metadata` keys the webhook path reads. -/
structure SessionMetadata where
  plan : Option String
  plan_name : Option String
  referral_code : Option String
deriving Repr, DecidableEq

/-- The `customer_details` sub-object: `email` and `name` keys. -/
structure CustomerDetails where
  email : Option String
  name : Option String
deriving Repr, DecidableEq

/-- The completed-session object embedded in a `checkout.session.completed`
event, restricted to the fields `handle_successful_payment` and
`detect_coupon_code` read.  `session.get(k)` on an absent key is `none`. -/
structure Session where
  id : Option String
  metadata : Option SessionMetadata
  customer_details : Option CustomerDetails
  amount_total : Option Int
  currency : Option String
  discounts : List String
deriving Repr, DecidableEq

/-- The provider SDK calls made during coupon detection, as an explicit
environment.  A call that raises is an `Except.error`.
`retrieveDiscount` embeds `stripe.Discount.retrieve` (with `none` for a falsy
result, mirroring the `if discount` guard); `retrieveExpanded` embeds the
`stripe.checkout.Session.retrieve(..., expand=...)` call together with the
`.get` chain extracting `total_details.breakdown.discounts`. -/
structure StripeEnv where
  retrieveDiscount : String → Except String (Option Discount)
  retrieveExpanded : String → Except String (List BreakdownDiscount)

/-- The `for discount_id in session.get("discounts", [])` loop inside the
first `try` of `detect_coupon_code`.  A raised exception aborts the whole
loop and is caught with `coupon_code` still unset (the loop breaks as soon
as it assigns, so no partial result survives an exception). -/
def detectFromDiscounts (env : StripeEnv) : List String → Option String
  | [] => none
  | discount_id :: rest =>
      match env.retrieveDiscount discount_id with
      | .error _ => none
      | .ok none => detectFromDiscounts env rest
      | .ok (some d) =>
          match d.coupon with
          | none => detectFromDiscounts env rest
          | some c => pyOr c.name c.id

/-- The `for d in discounts` loop over the expanded session's breakdown:
take the coupon `name` if truthy, else its `id` if truthy, else continue. -/
def detectFromBreakdown : List BreakdownDiscount → Option String
  | [] => none
  | d :: rest =>
      match d.coupon with
      | none => detectFromBreakdown rest
      | some c =>
          if truthy c.name then c.name
          else if truthy c.id then c.id
          else detectFromBreakdown rest

/-- The first phase of `detect_coupon_code`: the discount-reference loop,
guarded by `if session.get("discounts")` (an empty or absent list skips it). -/
def detectPhase1 (env : StripeEnv) (session : Session) : Option String :=
  if session.discounts.isEmpty then none
  else detectFromDiscounts env session.discounts

/-- Function `detect_coupon_code` from src/stripe_server.py.  Phase 1 walks the
session's discount references; only when that leaves `coupon_code` falsy does
phase 2 re-fetch the session with discount details expanded
(`session["id"]` on a session without an id raises, which the surrounding
`except` catches, leaving the phase-1 value).  An exception in phase 2 is
caught and likewise leaves the phase-1 value. -/
def detect_coupon_code (env : StripeEnv) (session : Session) : Option String :=
  let c1 := detectPhase1 env session
  if truthy c1 then c1
  else
    match session.id with
    | none => c1
    | some sid =>
        match env.retrieveExpanded sid with
        | .error _ => c1
        | .ok bds =>
            match detectFromBreakdown bds with
            | some v => some v
            | none => c1

/-! ## Outbound registration call -/

/-- Needle is an initial segment of the haystack (character lists). -/
def matchesAt (needle hay : List Char) : Bool :=
  match needle, hay with
  | [], _ => true
  | _ :: _, [] => false
  | n :: ns, h :: hs => n = h && matchesAt ns hs

/-- Needle occurs somewhere inside the haystack. -/
def containsChars (needle : List Char) : List Char → Bool
  | [] => matchesAt needle []
  | c :: hs => matchesAt needle (c :: hs) || containsChars needle hs

/-- The `"success" in response.text.lower()` check of the non-JSON fallback. -/
def textSignalsSuccess (text : String) : Bool :=
  containsChars "success".data (pyLower text).data

/-- The `timeout=30` bound passed to `requests.get` in
`register_sale_in_google_script`. -/
def REGISTER_SALE_TIMEOUT : Nat := 30

/-- The query parameters sent to the Google Apps Script collaborator
(`action=register_sale` and the shared token are fixed; `affiliate` is
attached only when the affiliate code is truthy). -/
structure SaleParams where
  email : String
  name : String
  qty : Nat
  session_id : String
  amount : Rat
  plan : String
  affiliate : Option String
deriving Repr, DecidableEq

/-- The collaborator's response body: either JSON whose `success` flag is
truthy or not (with an optional `error` field), or a non-JSON raw text
(on which `response.json()` raises and the substring fallback runs). -/
inductive ScriptBody
  | json (success : Bool) (error : Option String)
  | raw (text : String)
deriving Repr, DecidableEq

/-- The outcome of the `requests.get` call to the collaborator: a timeout
(`requests.exceptions.Timeout`), some other raised exception, or an HTTP
response with a status code and a body. -/
inductive ScriptResponse
  | timeout
  | raisedError (msg : String)
  | http (status : Nat) (body : ScriptBody)
deriving Repr, DecidableEq

/-- Function `register_sale_in_google_script` from src/stripe_server.py: returns the
parameters it sends and the boolean the Python function returns.  Success
requires HTTP 200 and either a JSON body with a truthy `success` flag or a
non-JSON body containing `"success"`; every timeout, raised exception,
non-200 status, or negative body yields `false`. -/
def register_sale_in_google_script (scriptResp : ScriptResponse)
    (email name : String) (licenses_qty : Nat) (session_id : String)
    (amount : Rat) (plan : String) (affiliate_code : Option String) :
    SaleParams × Bool :=
  let params : SaleParams :=
    { email := email, name := name, qty := licenses_qty,
      session_id := session_id, amount := amount, plan := plan,
      affiliate := if truthy affiliate_code then affiliate_code else none }
  match scriptResp with
  | .timeout => (params, false)
  | .raisedError _ => (params, false)
  | .http status body =>
      if status = 200 then
        match body with
        | .json success _ => (params, success)
        | .raw text => (params, textSignalsSuccess text)
      else (params, false)

/-! ## Payment reconciliation handler and webhook route -/

/-- Affiliate-code resolution in `handle_successful_payment`:
`affiliate_code = referral_code or coupon_code` where the referral code comes
from session metadata and the coupon code from `detect_coupon_code`. -/
def resolved_affiliate_code (env : StripeEnv) (session : Session) : Option String :=
  pyOr (session.metadata.getD ⟨none, none, none⟩).referral_code
    (detect_coupon_code env session)

/-- Function `handle_successful_payment` from src/stripe_server.py.  Returns the
outbound registration call made (its parameters and boolean result), or
`none` when no call is made because the customer email is absent or empty.
The extracted `currency` is only printed by the source, so it does not
appear in the result.  The function is total: no branch raises. -/
def handle_successful_payment (env : StripeEnv) (scriptResp : ScriptResponse)
    (session : Session) : Option (SaleParams × Bool) :=
  let session_id := session.id.getD "unknown"
  let metadata := session.metadata.getD ⟨none, none, none⟩
  let plan := metadata.plan.getD "1"
  let plan_name := metadata.plan_name.getD s!"Plan {plan}"
  let cd := session.customer_details.getD ⟨none, none⟩
  let email := cd.email
  let name := cd.name.getD "Customer"
  let amount_cents := session.amount_total.getD 0
  let amount : Rat := (amount_cents : Rat) / 100
  let licenses_qty := get_licenses_quantity amount_cents
  let affiliate_code := resolved_affiliate_code env session
  if truthy email then
    some (register_sale_in_google_script scriptResp (email.getD "") name
      licenses_qty session_id amount plan_name affiliate_code)
  else
    none

/-- A verified provider event: its `type` tag and the embedded session
object (`event["data"]["object"]`). -/
structure Event where
  type : String
  object : Session
deriving Repr, DecidableEq

/-- The outcome of `stripe.Webhook.construct_event` on the request's
body/signature pair: a verified event, a
`stripe.error.SignatureVerificationError`, or any other exception. -/
inductive VerifyOutcome
  | ok (event : Event)
  | sigError (msg : String)
  | otherError (msg : String)
deriving Repr, DecidableEq

/-- An HTTP reply of the Flask route: status code and body text. -/
structure HttpReply where
  status : Nat
  body : String
deriving Repr, DecidableEq

/-- The `/webhook` route from src/stripe_server.py.  The second component is
the outbound registration call the request triggered, if any: `none` means
the registration collaborator was never invoked. -/
def webhook (env : StripeEnv) (scriptResp : ScriptResponse)
    (verify : VerifyOutcome) : HttpReply × Option (SaleParams × Bool) :=
  match verify with
  | .sigError _ => (⟨400, "Invalid signature"⟩, none)
  | .otherError msg => (⟨400, msg⟩, none)
  | .ok event =>
      if event.type = "checkout.session.completed" then
        (⟨200, ""⟩, handle_successful_payment env scriptResp event.object)
      else
        (⟨200, ""⟩, none)

/-! ## Checkout session initiator -/

/-- Default value of `DOMAIN` (the environment override is deployment
configuration, out of this model's scope). -/
def DOMAIN : String := "https://nexuscopier.com"

/-- Embedding of `PLAN_NAMES.get(plan).get(lang, default)`: look the
plan up in the catalog, then pick the language entry, falling back to the
generic name when either lookup misses. -/
def planNameFor (plan lang : String) : String :=
  match PLAN_NAMES.lookup plan with
  | none => s!"Plan {plan}"
  | some ln =>
      if lang = "es" then ln.es
      else if lang = "en" then ln.en
      else s!"Plan {plan}"

/-- The JSON body of a `/create-checkout-session` request: `plan`, `lang`,
`referral_code`, each possibly absent. -/
structure CheckoutRequest where
  plan : Option String
  lang : Option String
  referral_code : Option String
deriving Repr, DecidableEq

/-- The metadata map attached to the created session: fixed keys plus the
two referral keys that are attached only for a non-blank referral code. -/
structure CheckoutMetadata where
  plan : String
  plan_name : String
  lang : String
  source : String
  referral_code : Option String
  is_referral : Option String
deriving Repr, DecidableEq

/-- The arguments of the `stripe.checkout.Session.create` call. -/
structure SessionCreateArgs where
  price : String
  quantity : Nat
  success_url : String
  cancel_url : String
  locale : String
  allow_promotion_codes : Bool
  payment_method_types : List String
  automatic_tax_enabled : Bool
  metadata : CheckoutMetadata
  submit_message : String
deriving Repr, DecidableEq

/-- The JSON body of a `/create-checkout-session` response. -/
inductive CheckoutBody
  | sessionId (id : String)
  | error (msg : String)
deriving Repr, DecidableEq

/-- The observable outcome of `/create-checkout-session`: HTTP status, JSON
body, and the provider call performed (`none` when the provider was never
invoked). -/
structure CheckoutOutcome where
  status : Nat
  body : CheckoutBody
  providerCall : Option SessionCreateArgs
deriving Repr, DecidableEq

/-- The `plan not in PRICE_MAP` membership test (an absent plan is not a
catalog key). -/
def planInCatalog (plan : Option String) : Bool :=
  match plan with
  | none => false
  | some p => (PRICE_MAP.lookup p).isSome

/-- Function `create_checkout_session` from src/stripe_server.py (POST branch).
`provider` is the behavior of `stripe.checkout.Session.create`: it returns
the new session's id or raises. -/
def create_checkout_session (provider : SessionCreateArgs → Except String String)
    (req : CheckoutRequest) : CheckoutOutcome :=
  let lang0 := pyLower (req.lang.getD "")
  let lang := if lang0 = "es" || lang0 = "en" then lang0 else "en"
  if !planInCatalog req.plan then
    { status := 400, body := .error "Plan inválido", providerCall := none }
  else
    let plan := req.plan.getD ""
    let lang_prefix := if lang = "es" then "/es" else ""
    let baseMeta : CheckoutMetadata :=
      { plan := plan, plan_name := planNameFor plan lang, lang := lang,
        source := "website", referral_code := none, is_referral := none }
    let metadata :=
      match req.referral_code with
      | none => baseMeta
      | some rc =>
          if rc ≠ "" && pyStrip rc ≠ "" then
            { baseMeta with
                referral_code := some (pyUpper (pyStrip rc)),
                is_referral := some "true" }
          else baseMeta
    let args : SessionCreateArgs :=
      { price := (PRICE_MAP.lookup plan).getD "",
        quantity := 1,
        success_url :=
          DOMAIN ++ lang_prefix ++ "/success.html?session_id=\x7bCHECKOUT_SESSION_ID\x7d",
        cancel_url := DOMAIN ++ lang_prefix ++ "/cancel.html",
        locale := if lang = "es" then "es" else "en",
        allow_promotion_codes := true,
        payment_method_types :=
          ["card", "paypal", "revolut_pay", "amazon_pay", "naver_pay",
           "link", "payco", "bancontact", "blik", "eps", "klarna"],
        automatic_tax_enabled := false,
        metadata := metadata,
        submit_message :=
          if lang = "es" then "Tu licencia será enviada por email en unos minutos."
          else "Your license will be sent via email within minutes." }
    match provider args with
    | .ok sid => { status := 200, body := .sessionId sid, providerCall := some args }
    | .error e => { status := 500, body := .error e, providerCall := some args }

/-! ## Admin session-detail lookup -/

/-- A provider error raised by `stripe.checkout.Session.retrieve`:
`stripe.error.InvalidRequestError` (the class raised for a lookup of an
unknown id) or any other exception carrying a message. -/
inductive ProviderError
  | invalidRequest (msg : String)
  | other (msg : String)
deriving Repr, DecidableEq

/-- The session object returned by the provider for the admin lookup,
restricted to the fields `get_session` reads.  `created` is kept as the raw
provider timestamp (the route renders it in ISO format). -/
structure RetrievedSession where
  id : String
  status : String
  payment_status : String
  customer_details : Option CustomerDetails
  amount_total : Option Int
  currency : String
  metadata : Option (List (String × String))
  created : Int
deriving Repr, DecidableEq

/-- The JSON body of a `/session/:id` response. -/
inductive SessionDetailBody
  | detail (id status payment_status : String) (customer_email : Option String)
      (amount : Rat) (currency : String) (metadata : List (String × String))
      (created : Int)
  | error (msg : String)
deriving Repr, DecidableEq

/-- Function `get_session` from src/stripe_server.py: the `/session/:id` admin route.
`retrieve` is the outcome of `stripe.checkout.Session.retrieve(session_id)`. -/
def get_session (retrieve : Except ProviderError RetrievedSession) :
    Nat × SessionDetailBody :=
  match retrieve with
  | .ok s =>
      (200, .detail s.id s.status s.payment_status
        (match s.customer_details with
         | none => none
         | some cd => cd.email)
        (match s.amount_total with
         | none => 0
         | some a => if a ≠ 0 then (a : Rat) / 100 else 0)
        s.currency
        (s.metadata.getD [])
        s.created)
  | .error (.invalidRequest _) => (404, .error "Session not found")
  | .error (.other msg) => (500, .error msg)

/-! ## Theorems -/

/-- C4: a webhook request whose body/signature pair fails verification gets
a 400 reply, invokes no event handler, and triggers no registration call
(the second component `none` is the absence of any outbound call); this
holds whatever the provider environment and collaborator would have done,
so no data from the request body is acted upon. -/
theorem webhook_rejects_unverified (env : StripeEnv) (scriptResp : ScriptResponse) :
    (∀ msg, webhook env scriptResp (.sigError msg) =
      (⟨400, "Invalid signature"⟩, none))
    ∧ (∀ msg, webhook env scriptResp (.otherError msg) = (⟨400, msg⟩, none)) :=
  ⟨fun _ => rfl, fun _ => rfl⟩

/-- C5: every verified event is acknowledged with a 200 reply, whether or
not it is handled; a `checkout.session.completed` event invokes the payment
reconciliation handler on the embedded session object, and every other event
type invokes no handler. -/
theorem webhook_acknowledges_verified (env : StripeEnv)
    (scriptResp : ScriptResponse) (event : Event) :
    (webhook env scriptResp (.ok event)).1 = ⟨200, ""⟩
    ∧ (webhook env scriptResp (.ok event)).2 =
        (if event.type = "checkout.session.completed"
         then handle_successful_payment env scriptResp event.object
         else none) := by
  refine ⟨?_, ?_⟩ <;>
    · simp only [webhook]
      split <;> rfl

/-- C3: a completed-session event whose customer details lack a (truthy)
email triggers no outbound registration call: the handler returns `none`
without constructing a sale record.  `handle_successful_payment` is a total
Lean function, so no unhandled error is possible on this path. -/
theorem no_email_no_registration (env : StripeEnv) (scriptResp : ScriptResponse)
    (session : Session)
    (h : truthy (session.customer_details.getD ⟨none, none⟩).email = false) :
    handle_successful_payment env scriptResp session = none := by
  simp [handle_successful_payment, h]

/-- Witness for C3: a concrete completed session with customer details but
no email, against a failing provider environment, yields no call. -/
theorem no_email_no_registration_witness :
    handle_successful_payment
      ⟨fun _ => .error "down", fun _ => .error "down"⟩ .timeout
      ⟨some "cs_1", some ⟨some "1", none, none⟩, some ⟨none, some "Bob"⟩,
       some 5900, some "usd", []⟩ = none :=
  no_email_no_registration _ _ _ (by decide)

/-- C9: the admin session lookup maps an `InvalidRequestError` (the unknown
id case) to a 404 reply with the error body `"Session not found"`, any other
provider error to a 500 reply carrying that error's message, and a
successful retrieval to a 200 reply whose detail body carries the session's
metadata map. -/
theorem get_session_error_translation (s : RetrievedSession) (msg : String) :
    (∀ m, get_session (.error (.invalidRequest m)) =
      (404, .error "Session not found"))
    ∧ get_session (.error (.other msg)) = (500, .error msg)
    ∧ (get_session (.ok s)).1 = 200
    ∧ (match (get_session (.ok s)).2 with
       | .detail _ _ _ _ _ _ md _ => md = s.metadata.getD []
       | .error _ => False) :=
  ⟨fun _ => rfl, rfl, rfl, rfl⟩

/-- C7: a checkout request whose plan identifier is not a catalog key
(the keys are "1", "2", "3") is answered with a 400 invalid-plan error and
the payment provider is never called, whatever the provider would have
returned. -/
theorem invalid_plan_rejected (provider : SessionCreateArgs → Except String String)
    (req : CheckoutRequest) (h : planInCatalog req.plan = false) :
    create_checkout_session provider req =
      { status := 400, body := .error "Plan inválido", providerCall := none } := by
  simp [create_checkout_session, h]

/-- Witness for C7: the out-of-catalog plan "9" is rejected without a
provider call even though the provider would have succeeded; and the three
catalog keys are exactly "1", "2", "3". -/
theorem invalid_plan_rejected_witness :
    create_checkout_session (fun _ => .ok "sess_ok") ⟨some "9", some "en", none⟩ =
      { status := 400, body := .error "Plan inválido", providerCall := none }
    ∧ (PRICE_MAP.map Prod.fst = ["1", "2", "3"]) :=
  ⟨invalid_plan_rejected _ _ (by decide), by decide⟩

/-- C8: for every checkout request with a cataloged plan, the provider call
is made and its metadata attaches the referral code trimmed and upper-cased
together with the `is_referral` flag, exactly when the referral code is
present and not whitespace-only; an absent, empty, or whitespace-only
referral code leaves both referral metadata keys unset. -/
theorem referral_code_normalized (provider : SessionCreateArgs → Except String String)
    (req : CheckoutRequest) (h : planInCatalog req.plan = true) :
    ∃ args, (create_checkout_session provider req).providerCall = some args
      ∧ args.metadata.referral_code =
          (match req.referral_code with
           | none => none
           | some rc =>
               if rc ≠ "" && pyStrip rc ≠ "" then some (pyUpper (pyStrip rc)) else none)
      ∧ args.metadata.is_referral =
          (match req.referral_code with
           | none => none
           | some rc =>
               if rc ≠ "" && pyStrip rc ≠ "" then some "true" else none) := by
  simp only [create_checkout_session, h]
  cases hrc : req.referral_code with
  | none =>
      cases hp : provider _ <;> simp
  | some rc =>
      by_cases hblank : rc ≠ "" && pyStrip rc ≠ "" <;>
        · simp only [hblank, if_true, if_false]
          cases hp : provider _ <;> simp [hp, hblank]

/-- Witness for C8: referral code `"  abc123  "` is stored as `"ABC123"`
with the referral flag set, and a whitespace-only referral code attaches no
referral metadata at all. -/
theorem referral_code_normalized_witness :
    (∃ args,
      (create_checkout_session (fun _ => .ok "s") ⟨some "1", some "en", some "  abc123  "⟩).providerCall
        = some args
      ∧ args.metadata.referral_code = some "ABC123"
      ∧ args.metadata.is_referral = some "true")
    ∧ (∃ args,
      (create_checkout_session (fun _ => .ok "s") ⟨some "2", some "en", some "   "⟩).providerCall
        = some args
      ∧ args.metadata.referral_code = none
      ∧ args.metadata.is_referral = none) := by
  constructor
  · obtain ⟨args, h1, h2, h3⟩ :=
      referral_code_normalized (fun _ => .ok "s") ⟨some "1", some "en", some "  abc123  "⟩ (by decide)
    exact ⟨args, h1, h2.trans (by decide), h3.trans (by decide)⟩
  · obtain ⟨args, h1, h2, h3⟩ :=
      referral_code_normalized (fun _ => .ok "s") ⟨some "2", some "en", some "   "⟩ (by decide)
    exact ⟨args, h1, h2.trans (by decide), h3.trans (by decide)⟩

/-- The discount-reference loop consults only `retrieveDiscount`. -/
theorem detectFromDiscounts_congr (env env' : StripeEnv)
    (h : env'.retrieveDiscount = env.retrieveDiscount) :
    ∀ l, detectFromDiscounts env' l = detectFromDiscounts env l := by
  intro l
  induction l with
  | nil => rfl
  | cons x xs ih =>
      simp only [detectFromDiscounts, h]
      cases env.retrieveDiscount x with
      | error e => rfl
      | ok od =>
          cases od with
          | none => exact ih
          | some d =>
              obtain ⟨oc⟩ := d
              cases oc with
              | none => exact ih
              | some c => rfl

/-- Phase 1 of coupon detection consults only `retrieveDiscount`. -/
theorem detectPhase1_congr (env env' : StripeEnv)
    (h : env'.retrieveDiscount = env.retrieveDiscount) (session : Session) :
    detectPhase1 env' session = detectPhase1 env session := by
  simp only [detectPhase1, detectFromDiscounts_congr env env' h]

/-- C1: affiliate-code resolution precedence.  When the session metadata
carries a (truthy) referral code, that code is the resolved affiliate code;
otherwise the result of coupon detection is used.  Moreover, coupon
detection first walks the session's discount references, and when that walk
yields a truthy coupon code, the result is that code independently of the
expanded-session re-fetch (the re-fetch only matters when the direct lookup
yields nothing). -/
theorem affiliate_code_precedence (env env' : StripeEnv) (session : Session) :
    (truthy (session.metadata.getD ⟨none, none, none⟩).referral_code = true →
      resolved_affiliate_code env session =
        (session.metadata.getD ⟨none, none, none⟩).referral_code)
    ∧ (truthy (session.metadata.getD ⟨none, none, none⟩).referral_code = false →
      resolved_affiliate_code env session = detect_coupon_code env session)
    ∧ (env'.retrieveDiscount = env.retrieveDiscount →
      truthy (detectPhase1 env session) = true →
      detect_coupon_code env' session = detectPhase1 env session) := by
  refine ⟨?_, ?_, ?_⟩
  · intro h
    simp [resolved_affiliate_code, pyOr, h]
  · intro h
    simp [resolved_affiliate_code, pyOr, h]
  · intro he h
    have hp : detectPhase1 env' session = detectPhase1 env session :=
      detectPhase1_congr env env' he session
    simp only [detect_coupon_code, hp, h, if_true]

/-- A provider environment in which every discount reference resolves to the
coupon named "COUP". -/
def envBoth : StripeEnv :=
  ⟨fun _ => .ok (some ⟨some ⟨some "COUP", some "co_id"⟩⟩), fun _ => .ok []⟩

/-- A completed session carrying both a metadata referral code and a
discount reference. -/
def sessionBoth : Session :=
  ⟨some "cs_2", some ⟨some "1", some "Plan 1", some "REF1"⟩,
   some ⟨some "ann@example.com", some "Ann"⟩, some 8900, some "usd", ["di_1"]⟩

/-- Witness for C1: on a session with both a referral code and a detectable
coupon, the resolved affiliate code is the referral code, even though
coupon detection alone finds the coupon. -/
theorem affiliate_code_precedence_witness :
    resolved_affiliate_code envBoth sessionBoth = some "REF1"
    ∧ detect_coupon_code envBoth sessionBoth = some "COUP" :=
  ⟨((affiliate_code_precedence envBoth envBoth sessionBoth).1 (by decide)).trans
      (by decide),
   ((affiliate_code_precedence envBoth envBoth sessionBoth).2.2 rfl (by decide)).trans
      (by decide)⟩

/-- The parameters sent by the registration call are determined by its
arguments (with `affiliate` attached only when truthy), whatever the
collaborator's response. -/
theorem register_sale_fst (scriptResp : ScriptResponse) (email name : String)
    (qty : Nat) (sid : String) (amount : Rat) (plan : String)
    (aff : Option String) :
    (register_sale_in_google_script scriptResp email name qty sid amount plan aff).1
      = ⟨email, name, qty, sid, amount, plan, if truthy aff then aff else none⟩ := by
  cases scriptResp with
  | timeout => rfl
  | raisedError m => rfl
  | http st b =>
      simp only [register_sale_in_google_script]
      split
      · cases b <;> rfl
      · rfl

/-- The boolean result of the registration call depends only on the
collaborator's response, not on the parameters sent. -/
theorem register_sale_snd_congr {scriptResp : ScriptResponse}
    {e1 n1 : String} {q1 : Nat} {s1 : String} {a1 : Rat} {p1 : String}
    {f1 : Option String}
    {e2 n2 : String} {q2 : Nat} {s2 : String} {a2 : Rat} {p2 : String}
    {f2 : Option String} :
    (register_sale_in_google_script scriptResp e1 n1 q1 s1 a1 p1 f1).2
      = (register_sale_in_google_script scriptResp e2 n2 q2 s2 a2 p2 f2).2 := by
  cases scriptResp with
  | timeout => rfl
  | raisedError m => rfl
  | http st b =>
      simp only [register_sale_in_google_script]
      split
      · cases b <;> rfl
      · rfl

/-- C10: coupon detection is total with respect to provider-call failures.
Whatever the provider environment does: (1) the handler forwards a
registration record exactly when the customer email is truthy; (2) an error
raised by the expanded-session re-fetch is caught, leaving the value the
discount-reference walk had produced; (3) when every discount retrieval
raises, the walk produces nothing; (4) two runs of the handler under
different provider environments produce registration records differing at
most in the affiliate parameter, with the same boolean result. -/
theorem coupon_failure_containment (env env' : StripeEnv)
    (scriptResp : ScriptResponse) (session : Session) :
    ((handle_successful_payment env scriptResp session).isSome
      = truthy (session.customer_details.getD ⟨none, none⟩).email)
    ∧ (∀ sid e, session.id = some sid → env.retrieveExpanded sid = .error e →
        detect_coupon_code env session = detectPhase1 env session)
    ∧ (∀ e, (∀ x, env.retrieveDiscount x = .error e) →
        detectPhase1 env session = none)
    ∧ (∀ p p', handle_successful_payment env scriptResp session = some p →
        handle_successful_payment env' scriptResp session = some p' →
        p.1.email = p'.1.email ∧ p.1.name = p'.1.name ∧ p.1.qty = p'.1.qty
        ∧ p.1.session_id = p'.1.session_id ∧ p.1.amount = p'.1.amount
        ∧ p.1.plan = p'.1.plan ∧ p.2 = p'.2) := by
  refine ⟨?_, ?_, ?_, ?_⟩
  · simp only [handle_successful_payment]
    cases h : truthy (session.customer_details.getD ⟨none, none⟩).email <;> simp [h]
  · intro sid e hsid herr
    simp only [detect_coupon_code, hsid, herr]
    split <;> rfl
  · intro e he
    simp only [detectPhase1]
    split
    · rfl
    · cases hl : session.discounts with
      | nil => rfl
      | cons x xs => simp [detectFromDiscounts, he x]
  · intro p p' hp hp'
    simp only [handle_successful_payment] at hp hp'
    by_cases h : truthy (session.customer_details.getD ⟨none, none⟩).email = true
    · rw [if_pos h] at hp hp'
      injection hp with hp
      injection hp' with hp'
      subst hp
      subst hp'
      refine ⟨?_, ?_, ?_, ?_, ?_, ?_, register_sale_snd_congr⟩ <;>
        simp only [register_sale_fst]
    · rw [if_neg h] at hp
      exact Option.noConfusion hp

/-- A provider environment in which every SDK call raises. -/
def envFail : StripeEnv :=
  ⟨fun _ => .error "api down", fun _ => .error "api down"⟩

/-- A paid session with an email and a discount reference but no referral
metadata. -/
def sessionNoReferral : Session :=
  ⟨some "cs_3", some ⟨some "2", none, none⟩,
   some ⟨some "joe@example.com", none⟩, some 8900, some "usd", ["di_9"]⟩

/-- Witness for C10: with every provider call failing, the handler still
forwards a registration record for a session with an email, and coupon
detection returns nothing rather than aborting. -/
theorem coupon_failure_containment_witness :
    (handle_successful_payment envFail .timeout sessionNoReferral).isSome = true
    ∧ detect_coupon_code envFail sessionNoReferral = none :=
  ⟨((coupon_failure_containment envFail envFail .timeout sessionNoReferral).1).trans
      (by decide),
   ((coupon_failure_containment envFail envFail .timeout sessionNoReferral).2.1
        "cs_3" "api down" rfl rfl).trans
      ((coupon_failure_containment envFail envFail .timeout sessionNoReferral).2.2.1
        "api down" (fun _ => rfl))⟩

/-- C6: the registration call returns `true` exactly when the collaborator
replies with HTTP 200 and either a JSON body whose success flag is truthy or
a non-JSON body containing the substring "success"; a timeout (the bound is
30 time units), any other raised exception, a non-200 status, or a negative
body yields `false`.  The failure is never surfaced to the webhook caller:
the webhook reply is identical whatever the collaborator responded (and the
model makes at most one call per event, so there is no retry). -/
theorem register_sale_success_characterized (scriptResp scriptResp' : ScriptResponse)
    (email name : String) (qty : Nat) (sid : String) (amount : Rat)
    (plan : String) (aff : Option String) :
    ((register_sale_in_google_script scriptResp email name qty sid amount plan aff).2 = true
      ↔ ∃ b, scriptResp = .http 200 b
          ∧ (match b with
             | .json s _ => s
             | .raw t => textSignalsSuccess t) = true)
    ∧ REGISTER_SALE_TIMEOUT = 30
    ∧ (∀ env verify, (webhook env scriptResp verify).1
        = (webhook env scriptResp' verify).1) := by
  refine ⟨?_, rfl, ?_⟩
  · cases scriptResp with
    | timeout => simp [register_sale_in_google_script]
    | raisedError m => simp [register_sale_in_google_script]
    | http st b =>
        by_cases hst : st = 200
        · subst hst
          cases b with
          | json s e => simp [register_sale_in_google_script]
          | raw t => simp [register_sale_in_google_script]
        · simp [register_sale_in_google_script, hst]
  · intro env verify
    cases verify with
    | ok ev =>
        simp only [webhook]
        split <;> rfl
    | sigError m => rfl
    | otherError m => rfl
